import Mathlib

/-!
Verification of `root/app/functions/pylav_setup.py` from the
`docker-red-discordbot` repository.

The script is sequential orchestration: it reads a storage-mode flag,
gates on an environment variable, syncs a git repository, compares the
current commit with a persisted one, and on change copies plugin
directories, spawns a pip subprocess, and rewrites two JSON registry
files.  We embed the script shallowly:

* JSON documents are the inductive `JValue`; Python dict/list indexing,
  membership tests and item assignment become `Except`-valued operations
  that raise `PyError`s exactly where Python would raise.
* The fixed filesystem paths the script touches become the fields of
  `FSState`; the contents of the repository working copy are the list
  `repoEntries` of its top-level entries.
* Observable side effects (directory creation, git sync, plugin-folder
  copies, subprocess spawn/wait/kill, registry and hash-file writes,
  the distinguishing log lines) are recorded in an `Act` trace.
* The `__main__` block becomes `runMain`, returning an `Outcome`:
  either `exited code fs acts` (a `sys.exit`) or `crashed e fs acts`
  (an uncaught exception).  The `try/except/finally` block of the
  install phase is `tryPhase`, which threads the filesystem state and
  reports a caught error as a value so that partial writes survive.
The stdout-tailing loop over the pip subprocess only logs lines and is
not otherwise observable, so it is not given a separate model.
-/

/-- A JSON value, as produced by `json.load`.  Numbers are modelled as
integers; the documents handled by the script contain none. -/
inductive JValue where
  | null : JValue
  | bool : Bool → JValue
  | num : Int → JValue
  | str : String → JValue
  | arr : List JValue → JValue
  | obj : List (String × JValue) → JValue

/-- The Python exceptions the embedded operations can raise. -/
inductive PyError where
  | keyError : String → PyError
  | typeError : PyError
  | attributeError : PyError
  | fileNotFound : PyError
deriving DecidableEq

/-- Key lookup in an ordered dict (first match; `json.load` never
produces duplicate keys). -/
def lookupField : List (String × JValue) → String → Option JValue
  | [], _ => none
  | (k, v) :: rest, key => if k = key then some v else lookupField rest key

/-- Dict update: existing keys are overwritten in place, new keys are
appended, matching Python insertion-order semantics. -/
def setField : List (String × JValue) → String → JValue → List (String × JValue)
  | [], key, v => [(key, v)]
  | (k, w) :: rest, key, v =>
      if k = key then (k, v) :: rest else (k, w) :: setField rest key v

/-- `x[key]` for a string key: dict lookup (KeyError on a missing key),
TypeError on any non-dict value. -/
def JValue.getItem : JValue → String → Except PyError JValue
  | .obj fields, key =>
      match lookupField fields key with
      | some v => .ok v
      | none => .error (.keyError key)
  | _, _ => .error .typeError

/-- Equality as Python compares JSON scalars; lists and dicts are never
compared by the script's membership tests against a string. -/
def scalarEq : JValue → JValue → Bool
  | .null, .null => true
  | .bool a, .bool b => a == b
  | .num a, .num b => a == b
  | .str a, .str b => a == b
  | _, _ => false

/-- Whether the char list `s` starts with the char list `p`. -/
def charsStartWith : List Char → List Char → Bool
  | _, [] => true
  | [], _ :: _ => false
  | a :: as, b :: bs => a == b && charsStartWith as bs

/-- Whether `needle` occurs as a contiguous substring of `hay`
(Python `needle in hay` for strings). -/
def charsContainSub (needle : List Char) : List Char → Bool
  | [] => needle.isEmpty
  | c :: rest => charsStartWith (c :: rest) needle || charsContainSub needle rest

/-- Python `needle in hay` on strings. -/
def strContains (hay needle : String) : Bool :=
  charsContainSub needle.data hay.data

/-- Python `s.startswith(p)`. -/
def strStartsWith (s p : String) : Bool :=
  charsStartWith s.data p.data

/-- Python `s.upper()` (ASCII suffices for the values compared here). -/
def strToUpper (s : String) : String :=
  String.mk (s.data.map Char.toUpper)

/-- Python `key in x`: key membership for a dict, element membership for
a list, substring for a string, TypeError otherwise. -/
def JValue.hasMember : JValue → String → Except PyError Bool
  | .obj fields, key => .ok (lookupField fields key).isSome
  | .arr xs, key => .ok (xs.any (scalarEq (.str key)))
  | .str s, key => .ok (strContains s key)
  | _, _ => .error .typeError

/-- `x[key] = v` for a string key: in-place dict update, TypeError on
any non-dict value. -/
def JValue.setKey : JValue → String → JValue → Except PyError JValue
  | .obj fields, key, v => .ok (.obj (setField fields key v))
  | _, _, _ => .error .typeError

/-- Pure dict lookup used only to state frame properties. -/
def jGet : JValue → String → Option JValue
  | .obj fields, key => lookupField fields key
  | _, _ => none

/-- A top-level entry of the repository working copy
(`RepoManagerRepoFolder.iterdir()`): its name, whether it is a
directory, and the parsed contents of its `info.json` if that file
exists. -/
structure RepoEntry where
  name : String
  isDir : Bool
  infoJson : Option JValue

/-- The fixed filesystem locations the script reads and writes.
`none` means the file does not exist. -/
structure FSState where
  repoManagerSetting : Option JValue
  downloaderSetting : Option JValue
  pylavHashFile : Option String
  configJson : Option JValue
  repoEntries : List RepoEntry

/-- The observable side effects of a run, in order. -/
inductive Act where
  | mkdirFolders : Act
  | gitSync : Act
  | logUpToDate : Act
  | copyCog : String → Act
  | spawnPip : List JValue → Act
  | writeDownloaderSetting : JValue → Act
  | writeRepoManagerSetting : JValue → Act
  | writeHashFile : String → Act
  | waitPip : Act
  | logFailure : PyError → Act
  | killPip : Act
  | terminatePip : Act

/-- Module-level resolution of `STORAGE_TYPE` (lines 22-29): take the
environment variable unless it is unset or empty, otherwise read
`/data/config.json` and index `["docker"]["STORAGE_TYPE"]`; calling
`.upper()` on a non-string config value raises AttributeError, a
missing config file raises FileNotFoundError. -/
def resolveStorageType (envStorageType : Option String) (configJson : Option JValue) :
    Except PyError String :=
  if (match envStorageType with | none => true | some s => s = "") then
    match configJson with
    | none => .error .fileNotFound
    | some cfg =>
        match cfg.getItem "docker" with
        | .error e => .error e
        | .ok docker =>
            match docker.getItem "STORAGE_TYPE" with
            | .error e => .error e
            | .ok (.str t) => .ok t
            | .ok _ => .error .attributeError
  else .ok (envStorageType.getD "")

/-- `IS_JSON = STORAGE_TYPE.upper() == "JSON"` (line 29). -/
def isJSONStorage (storageType : String) : Bool :=
  strToUpper storageType == "JSON"

/-- The document written when no RepoManager settings file exists. -/
def defaultRepoManagerDoc : JValue :=
  .obj [("170708480", .obj [("GLOBAL", .obj [("repos", .obj [("pylav", .str "master")])])])]

/-- `create_or_update_repo_manager_setting` (lines 44-56), acting on the
current contents of the settings file.  Returns the contents now on
disk and whether a write happened. -/
def create_or_update_repo_manager_setting (file : Option JValue) :
    Except PyError (JValue × Bool) :=
  match file with
  | none => .ok (defaultRepoManagerDoc, true)
  | some data =>
      match data.getItem "170708480" with
      | .error e => .error e
      | .ok level1 =>
      match level1.getItem "GLOBAL" with
      | .error e => .error e
      | .ok level2 =>
      match level2.getItem "repos" with
      | .error e => .error e
      | .ok repos =>
      match repos.hasMember "pylav" with
      | .error e => .error e
      | .ok present =>
      if present then
        .ok (data, false)
      else
        match repos.setKey "pylav" (.str "master") with
        | .error e => .error e
        | .ok newRepos =>
        match level2.setKey "repos" newRepos with
        | .error e => .error e
        | .ok newLevel2 =>
        match level1.setKey "GLOBAL" newLevel2 with
        | .error e => .error e
        | .ok newLevel1 =>
        match data.setKey "170708480" newLevel1 with
        | .error e => .error e
        | .ok newData => .ok (newData, true)

/-- The document written when no Downloader settings file exists. -/
def defaultDownloaderDoc (data : JValue) : JValue :=
  .obj [("998240343", .obj [("GLOBAL", .obj [("installed_cogs", .obj [("pylav", data)])])])]

/-- `create_or_update_downloader_setting` (lines 59-70): sets
`doc["998240343"]["GLOBAL"]["installed_cogs"]["pylav"] = data` and
writes the whole document back (a write always happens on success). -/
def create_or_update_downloader_setting (file : Option JValue) (data : JValue) :
    Except PyError JValue :=
  match file with
  | none => .ok (defaultDownloaderDoc data)
  | some doc =>
      match doc.getItem "998240343" with
      | .error e => .error e
      | .ok level1 =>
      match level1.getItem "GLOBAL" with
      | .error e => .error e
      | .ok level2 =>
      match level2.getItem "installed_cogs" with
      | .error e => .error e
      | .ok ic =>
      match ic.setKey "pylav" data with
      | .error e => .error e
      | .ok newIc =>
      match level2.setKey "installed_cogs" newIc with
      | .error e => .error e
      | .ok newLevel2 =>
      match level1.setKey "GLOBAL" newLevel2 with
      | .error e => .error e
      | .ok newLevel1 => doc.setKey "998240343" newLevel1

/-- `get_pylav_cogs` (lines 86-91): the top-level entries that are
directories and whose name starts with "pl" or equals "audio". -/
def get_pylav_cogs (entries : List RepoEntry) : List RepoEntry :=
  entries.filter (fun cog =>
    cog.isDir && (strStartsWith cog.name "pl" || cog.name == "audio"))

/-- `install_or_update_pylav_cogs` (lines 101-103): one
remove-and-copy per discovered cog. -/
def install_or_update_pylav_cogs (cogs : List RepoEntry) : List Act :=
  cogs.map (fun cog => .copyCog cog.name)

/-- `requirements.add(req)`: lists and dicts are unhashable
(TypeError); a scalar is inserted if not already present. -/
def addToSet (s : List JValue) (v : JValue) : Except PyError (List JValue) :=
  match v with
  | .arr _ => .error .typeError
  | .obj _ => .error .typeError
  | _ => .ok (if s.any (scalarEq v) then s else s ++ [v])

/-- Python iteration over `data["requirements"]`: a list yields its
elements, a string its characters, a dict its keys; anything else
raises TypeError. -/
def iterElems : JValue → Except PyError (List JValue)
  | .arr xs => .ok xs
  | .str s => .ok (s.data.map (fun c => .str (String.mk [c])))
  | .obj fields => .ok (fields.map (fun p => .str p.1))
  | _ => .error .typeError

/-- `for req in elems: requirements.add(req)`. -/
def addAll (s : List JValue) : List JValue → Except PyError (List JValue)
  | [] => .ok s
  | v :: rest =>
      match addToSet s v with
      | .error e => .error e
      | .ok s1 => addAll s1 rest

/-- The body of the `get_requirements_for_all_cogs` loop for one cog:
the updated accumulator, or the exception the iteration raises. -/
def cogReqsStep (s : List JValue) (cog : RepoEntry) : Except PyError (List JValue) :=
  match cog.infoJson with
  | none => .ok s
  | some data =>
      match data.hasMember "requirements" with
      | .error e => .error e
      | .ok hasReqs =>
      if hasReqs then
        match data.getItem "requirements" with
        | .error e => .error e
        | .ok reqsVal =>
        match iterElems reqsVal with
        | .error e => .error e
        | .ok elems => addAll s elems
      else .ok s

def collectReqs (s : List JValue) : List RepoEntry → Except PyError (List JValue)
  | [] => .ok s
  | cog :: rest =>
      match cogReqsStep s cog with
      | .error e => .error e
      | .ok s1 => collectReqs s1 rest

/-- `get_requirements_for_all_cogs` (lines 106-115). -/
def get_requirements_for_all_cogs (cogs : List RepoEntry) : Except PyError (List JValue) :=
  collectReqs [] cogs

/-- `install_requirements` (lines 118-147): if the collected set is
empty, return None and spawn nothing; otherwise spawn pip (the handle
is identified with the requirement list it was spawned for).  The
stdout-tailing loop only logs and is not modelled further. -/
def install_requirements (cogs : List RepoEntry) :
    Except PyError (Option (List JValue) × List Act) :=
  match get_requirements_for_all_cogs cogs with
  | .error e => .error e
  | .ok requirements =>
      if requirements.isEmpty then
        .ok (none, [])
      else
        .ok (some requirements, [.spawnPip requirements])

/-- `generate_updated_downloader_setting` (lines 150-161). -/
def generate_updated_downloader_setting (cogs : List RepoEntry) (commit_hash : String) :
    JValue :=
  .obj (cogs.map (fun cog =>
    (cog.name, .obj [("repo_name", .str "pylav"), ("module_name", .str cog.name),
                     ("commit", .str commit_hash), ("pinned", .bool true)])))

/-- `get_existing_commit` (lines 164-168): the hash file's contents,
or the empty string if it does not exist. -/
def get_existing_commit (fs : FSState) : String :=
  match fs.pylavHashFile with
  | some s => s
  | none => ""

/-- `update_existing_commit` (lines 171-173): write the commit as the
file's entire contents. -/
def update_existing_commit (fs : FSState) (commit_hash : String) : FSState :=
  { fs with pylavHashFile := some commit_hash }

/-- The gate of `__main__` (line 177): run only if `PCX_DISCORDBOT_TAG`
is set and contains "pylav". -/
def gatePasses (tag : Option String) : Bool :=
  match tag with
  | none => false
  | some t => strContains t "pylav"

/-- The `try` block (lines 194-205), threading the filesystem so that
writes made before a failure survive; the third component is the caught
exception, if any. -/
def tryPhase (fs : FSState) (isJson : Bool) (cogs : List RepoEntry)
    (currentCommit : String) (processStarted : Bool) :
    FSState × List Act × Option PyError :=
  let downloaderData := generate_updated_downloader_setting cogs currentCommit
  if isJson then
    match create_or_update_downloader_setting fs.downloaderSetting downloaderData with
    | .error e => (fs, [], some e)
    | .ok newDown =>
      let fs1 := { fs with downloaderSetting := some newDown }
      match create_or_update_repo_manager_setting fs1.repoManagerSetting with
      | .error e => (fs1, [.writeDownloaderSetting newDown], some e)
      | .ok (newRepoMan, wrote) =>
        let fs2 := { fs1 with repoManagerSetting := some newRepoMan }
        let fs3 := update_existing_commit fs2 currentCommit
        (fs3,
         [.writeDownloaderSetting newDown]
           ++ (if wrote then [.writeRepoManagerSetting newRepoMan] else [])
           ++ [.writeHashFile currentCommit]
           ++ (if processStarted then [.waitPip] else []),
         none)
  else
    let fs3 := update_existing_commit fs currentCommit
    (fs3, [.writeHashFile currentCommit] ++ (if processStarted then [.waitPip] else []), none)

/-- The `except` clause (lines 206-207): a caught exception is logged,
nothing more. -/
def failLogActs : Option PyError → List Act
  | some e => [.logFailure e]
  | none => []

/-- How a run ends: a `sys.exit(code)` or an uncaught exception. -/
inductive Outcome where
  | exited : Nat → FSState → List Act → Outcome
  | crashed : PyError → FSState → List Act → Outcome

/-- The inputs of a run: the two environment variables, the initial
filesystem, and the HEAD commit that the git sync reports
(`repoEntries` stands for the working-copy contents after the sync). -/
structure MainInput where
  tag : Option String
  storageTypeEnv : Option String
  fs : FSState
  gitHead : String

/-- The `__main__` block (lines 176-212), preceded by the module-level
`STORAGE_TYPE` resolution that runs before it. -/
def runMain (inp : MainInput) : Outcome :=
  match resolveStorageType inp.storageTypeEnv inp.fs.configJson with
  | .error e => .crashed e inp.fs []
  | .ok storageType =>
    let isJson := isJSONStorage storageType
    if ¬ gatePasses inp.tag then
      .exited 0 inp.fs []
    else
      let acts0 := [Act.mkdirFolders, Act.gitSync]
      let currentCommit := inp.gitHead
      let existingCommit := get_existing_commit inp.fs
      let cogsMapping := get_pylav_cogs inp.fs.repoEntries
      if currentCommit = existingCommit then
        .exited 0 inp.fs (acts0 ++ [.logUpToDate])
      else
        let copyActs := if isJson then install_or_update_pylav_cogs cogsMapping else []
        match install_requirements cogsMapping with
        | .error e => .crashed e inp.fs (acts0 ++ copyActs)
        | .ok (process, spawnActs) =>
          let tryOut := tryPhase inp.fs isJson cogsMapping currentCommit process.isSome
          let cleanupActs := if process.isSome then [Act.killPip, Act.terminatePip] else []
          .exited 0 tryOut.1
            (acts0 ++ copyActs ++ spawnActs ++ tryOut.2.1 ++ failLogActs tryOut.2.2 ++ cleanupActs)

/-- The actions an outcome performed. -/
def outcomeActs : Outcome → List Act
  | .exited _ _ acts => acts
  | .crashed _ _ acts => acts

/-- The exit code of an outcome, none for a crash. -/
def outcomeCode : Outcome → Option Nat
  | .exited code _ _ => some code
  | .crashed _ _ _ => none

/-- The final filesystem of an outcome. -/
def outcomeFS : Outcome → FSState
  | .exited _ fs _ => fs
  | .crashed _ fs _ => fs

/-- Whether an action writes one of the two registry files. -/
def isRegistryWrite : Act → Bool
  | .writeDownloaderSetting _ => true
  | .writeRepoManagerSetting _ => true
  | _ => false

/-- Whether an action copies a plugin directory. -/
def isCopy : Act → Bool
  | .copyCog _ => true
  | _ => false

/-- Whether an action spawns the dependency installer. -/
def isSpawn : Act → Bool
  | .spawnPip _ => true
  | _ => false

/-! ### Helper lemmas -/

/-- On the up-to-date path (equal commits) the run exits 0 having only
made the folders, synced the repository and logged the up-to-date line. -/
theorem runMain_upToDate (inp : MainInput) (st : String)
    (hinit : resolveStorageType inp.storageTypeEnv inp.fs.configJson = .ok st)
    (hgate : gatePasses inp.tag = true)
    (heq : inp.gitHead = get_existing_commit inp.fs) :
    runMain inp = .exited 0 inp.fs [.mkdirFolders, .gitSync, .logUpToDate] := by
  unfold runMain
  rw [hinit]
  simp [hgate, heq]

/-- Looking a key up after a `setField` update. -/
theorem lookupField_setField (fields : List (String × JValue)) (k k2 : String) (v : JValue) :
    lookupField (setField fields k v) k2 = if k2 = k then some v else lookupField fields k2 := by
  induction fields with
  | nil => simp [setField, lookupField, eq_comm]
  | cons p rest ih =>
      obtain ⟨pk, pv⟩ := p
      by_cases hk : pk = k
      · subst hk
        simp [setField, lookupField]
        by_cases h2 : pk = k2
        · subst h2; simp
        · simp [h2, Ne.symm h2]
      · simp [setField, hk, lookupField]
        by_cases h2 : pk = k2
        · subst h2; simp [hk]
        · simp [h2, ih]

/-- Whether a JSON value is a string. -/
def isStrVal : JValue → Bool
  | .str _ => true
  | _ => false

/-- A well-formed manifest as the spec describes one: absent, or a JSON
object whose optional requirements field is a list of strings. -/
def wfManifest : Option JValue → Bool
  | none => true
  | some (.obj fields) =>
      match lookupField fields "requirements" with
      | none => true
      | some (.arr xs) => xs.all isStrVal
      | some _ => false
  | some _ => false

/-- The requirements list a manifest declares (empty when the manifest
or the field is absent). -/
def manifestReqs : Option JValue → List String
  | some (.obj fields) =>
      match lookupField fields "requirements" with
      | some (.arr xs) => xs.filterMap (fun w => match w with | .str t => some t | _ => none)
      | _ => []
  | _ => []

theorem any_scalarEq_str (s : List JValue) (hs : ∀ v ∈ s, ∃ t2, v = JValue.str t2) (t : String) :
    s.any (scalarEq (.str t)) = true ↔ JValue.str t ∈ s := by
  simp only [List.any_eq_true]
  constructor
  · rintro ⟨v, hv, he⟩
    obtain ⟨t2, rfl⟩ := hs v hv
    simp [scalarEq] at he
    subst he
    exact hv
  · intro h
    exact ⟨.str t, h, by simp [scalarEq]⟩

theorem all_isStrVal (xs : List JValue) (h : xs.all isStrVal = true) :
    ∀ v ∈ xs, ∃ t, v = JValue.str t := by
  intro v hv
  have hb := List.all_eq_true.mp h v hv
  cases v <;> simp [isStrVal] at hb ⊢

theorem mem_iff_filterMap_str (xs : List JValue) (hxs : ∀ v ∈ xs, ∃ t, v = JValue.str t)
    (v : JValue) :
    v ∈ xs ↔ ∃ t ∈ xs.filterMap (fun w => match w with | .str u => some u | _ => none),
      v = JValue.str t := by
  constructor
  · intro hv
    obtain ⟨t, rfl⟩ := hxs v hv
    exact ⟨t, List.mem_filterMap.mpr ⟨.str t, hv, rfl⟩, rfl⟩
  · rintro ⟨t, ht, rfl⟩
    obtain ⟨w, hw, hm⟩ := List.mem_filterMap.mp ht
    cases w <;> simp at hm
    subst hm
    exact hw

/-- Adding a list of string values to the accumulated set: the result is
the membership-union, keeps all values strings, and stays duplicate-free. -/
theorem addAll_of_strings (xs : List JValue) : ∀ (s : List JValue),
    (∀ v ∈ xs, ∃ t, v = JValue.str t) →
    (∀ v ∈ s, ∃ t, v = JValue.str t) → s.Nodup →
    ∃ s2, addAll s xs = .ok s2 ∧
      (∀ v, v ∈ s2 ↔ v ∈ s ∨ v ∈ xs) ∧
      (∀ v ∈ s2, ∃ t, v = JValue.str t) ∧ s2.Nodup := by
  induction xs with
  | nil =>
      intro s _ hs hnd
      exact ⟨s, rfl, by simp, hs, hnd⟩
  | cons x rest ih =>
      intro s hxs hs hnd
      obtain ⟨t, rfl⟩ := hxs x (List.mem_cons_self x rest)
      have hrest : ∀ v ∈ rest, ∃ t2, v = JValue.str t2 :=
        fun v hv => hxs v (List.mem_cons_of_mem _ hv)
      by_cases hc : JValue.str t ∈ s
      · have hany : s.any (scalarEq (.str t)) = true := (any_scalarEq_str s hs t).mpr hc
        obtain ⟨s2, h1, h2, h3, h4⟩ := ih s hrest hs hnd
        refine ⟨s2, ?_, ?_, h3, h4⟩
        · simp [addAll, addToSet, hany, h1]
        · intro v
          rw [h2 v]
          simp only [List.mem_cons]
          constructor
          · rintro (hv | hv)
            · exact Or.inl hv
            · exact Or.inr (Or.inr hv)
          · rintro (hv | rfl | hv)
            · exact Or.inl hv
            · exact Or.inl hc
            · exact Or.inr hv
      · have hany : s.any (scalarEq (.str t)) = false := by
          rcases hb : s.any (scalarEq (.str t)) with _ | _
          · rfl
          · exact absurd ((any_scalarEq_str s hs t).mp hb) hc
        have hs2 : ∀ v ∈ s ++ [JValue.str t], ∃ t2, v = JValue.str t2 := by
          intro v hv
          rcases List.mem_append.mp hv with h | h
          · exact hs v h
          · simp at h; exact ⟨t, h⟩
        have hnd2 : (s ++ [JValue.str t]).Nodup := by
          simp [List.nodup_append, hnd, hc]
        obtain ⟨s2, h1, h2, h3, h4⟩ := ih (s ++ [JValue.str t]) hrest hs2 hnd2
        refine ⟨s2, ?_, ?_, h3, h4⟩
        · simp [addAll, addToSet, hany, h1]
        · intro v
          rw [h2 v]
          simp only [List.mem_append, List.mem_cons]
          tauto

/-- One loop iteration of the requirement collector on a well-formed
manifest: it adds exactly the manifest's declared requirements. -/
theorem cogReqsStep_of_wf (s : List JValue) (cog : RepoEntry)
    (hwf : wfManifest cog.infoJson = true)
    (hs : ∀ v ∈ s, ∃ t, v = JValue.str t) (hnd : s.Nodup) :
    ∃ s2, cogReqsStep s cog = .ok s2 ∧
      (∀ v, v ∈ s2 ↔ v ∈ s ∨ ∃ t ∈ manifestReqs cog.infoJson, v = JValue.str t) ∧
      (∀ v ∈ s2, ∃ t, v = JValue.str t) ∧ s2.Nodup := by
  rcases hinfo : cog.infoJson with _ | data
  · refine ⟨s, by simp [cogReqsStep, hinfo], ?_, hs, hnd⟩
    intro v
    simp [manifestReqs]
  · rw [hinfo] at hwf
    cases data with
    | null => simp [wfManifest] at hwf
    | bool b => simp [wfManifest] at hwf
    | num n => simp [wfManifest] at hwf
    | str t => simp [wfManifest] at hwf
    | arr xs => simp [wfManifest] at hwf
    | obj fields =>
        rcases hlook : lookupField fields "requirements" with _ | val
        · refine ⟨s, ?_, ?_, hs, hnd⟩
          · simp [cogReqsStep, hinfo, JValue.hasMember, hlook]
          · intro v
            simp [manifestReqs, hlook]
        · rw [wfManifest, hlook] at hwf
          cases val with
          | null => simp at hwf
          | bool b => simp at hwf
          | num n => simp at hwf
          | str t => simp at hwf
          | obj f2 => simp at hwf
          | arr xs =>
              have hxs : ∀ v ∈ xs, ∃ t, v = JValue.str t := all_isStrVal xs hwf
              obtain ⟨s2, h1, h2, h3, h4⟩ := addAll_of_strings xs s hxs hs hnd
              refine ⟨s2, ?_, ?_, h3, h4⟩
              · simp [cogReqsStep, hinfo, JValue.hasMember, JValue.getItem, hlook, iterElems, h1]
              · intro v
                rw [h2 v]
                rw [manifestReqs, hlook]
                rw [mem_iff_filterMap_str xs hxs v]

/-- The requirement collector over a list of well-formed manifests
computes the union of their requirement lists. -/
theorem collectReqs_of_wf (cogs : List RepoEntry) : ∀ (s : List JValue),
    (∀ cog ∈ cogs, wfManifest cog.infoJson = true) →
    (∀ v ∈ s, ∃ t, v = JValue.str t) → s.Nodup →
    ∃ reqs, collectReqs s cogs = .ok reqs ∧
      (∀ v, v ∈ reqs ↔ v ∈ s ∨ ∃ cog ∈ cogs, ∃ t ∈ manifestReqs cog.infoJson, v = JValue.str t) ∧
      (∀ v ∈ reqs, ∃ t, v = JValue.str t) ∧ reqs.Nodup := by
  induction cogs with
  | nil =>
      intro s _ hs hnd
      exact ⟨s, rfl, by simp, hs, hnd⟩
  | cons cog rest ih =>
      intro s h hs hnd
      obtain ⟨s1, h1, h2, h3, h4⟩ :=
        cogReqsStep_of_wf s cog (h cog (List.mem_cons_self cog rest)) hs hnd
      obtain ⟨reqs, g1, g2, g3, g4⟩ :=
        ih s1 (fun c hc => h c (List.mem_cons_of_mem _ hc)) h3 h4
      refine ⟨reqs, ?_, ?_, g3, g4⟩
      · simp [collectReqs, h1, g1]
      · intro v
        rw [g2 v, h2 v]
        simp only [List.mem_cons]
        constructor
        · rintro ((hv | hv) | hv)
          · exact Or.inl hv
          · obtain ⟨t, ht, rfl⟩ := hv
            exact Or.inr ⟨cog, Or.inl rfl, t, ht, rfl⟩
          · obtain ⟨c, hc, t, ht, rfl⟩ := hv
            exact Or.inr ⟨c, Or.inr hc, t, ht, rfl⟩
        · rintro (hv | hv)
          · exact Or.inl (Or.inl hv)
          · obtain ⟨c, hc, t, ht, rfl⟩ := hv
            rcases hc with rfl | hc
            · exact Or.inl (Or.inr ⟨t, ht, rfl⟩)
            · exact Or.inr ⟨c, hc, t, ht, rfl⟩

theorem logUpToDate_notin_copy (cogs : List RepoEntry) :
    Act.logUpToDate ∉ install_or_update_pylav_cogs cogs := by
  simp [install_or_update_pylav_cogs]

theorem logUpToDate_notin_spawnActs (cogs : List RepoEntry) (p : Option (List JValue))
    (sa : List Act) (h : install_requirements cogs = .ok (p, sa)) :
    Act.logUpToDate ∉ sa := by
  unfold install_requirements at h
  split at h
  · simp at h
  · split at h
    · injection h with h1
      injection h1 with h2 h3
      subst h3
      simp
    · injection h with h1
      injection h1 with h2 h3
      subst h3
      simp

theorem logUpToDate_notin_tryPhase (fs : FSState) (isJson : Bool) (cogs : List RepoEntry)
    (cc : String) (ps : Bool) :
    Act.logUpToDate ∉ (tryPhase fs isJson cogs cc ps).2.1 := by
  unfold tryPhase
  by_cases hj : isJson
  · rw [if_pos hj]
    rcases create_or_update_downloader_setting fs.downloaderSetting
        (generate_updated_downloader_setting cogs cc) with e | nd
    · simp
    · dsimp only
      rcases create_or_update_repo_manager_setting fs.repoManagerSetting with e2 | ⟨nm, wrote⟩
      · simp
      · by_cases hw : wrote <;> by_cases hps : ps <;> simp [hw, hps]
  · rw [if_neg hj]
    by_cases hps : ps <;> simp [hps]

theorem logUpToDate_notin_failLog (o : Option PyError) :
    Act.logUpToDate ∉ failLogActs o := by
  cases o <;> simp [failLogActs]

/-- Once the gate passes and the commits differ, no path of the run
emits the up-to-date log line. -/
theorem runMain_install_path (inp : MainInput) (st : String)
    (hinit : resolveStorageType inp.storageTypeEnv inp.fs.configJson = .ok st)
    (hgate : gatePasses inp.tag = true)
    (hne : inp.gitHead ≠ get_existing_commit inp.fs) :
    Act.logUpToDate ∉ outcomeActs (runMain inp) := by
  rcases hp : install_requirements (get_pylav_cogs inp.fs.repoEntries) with e | pr
  · have hrun : runMain inp = .crashed e inp.fs
        ([Act.mkdirFolders, Act.gitSync]
          ++ (if isJSONStorage st then
            install_or_update_pylav_cogs (get_pylav_cogs inp.fs.repoEntries) else [])) := by
      unfold runMain
      rw [hinit]
      simp [hgate, hne, hp]
    rw [hrun]
    simp only [outcomeActs]
    split_ifs <;> simp [logUpToDate_notin_copy]
  · obtain ⟨process, spawnActs⟩ := pr
    have hrun : runMain inp = .exited 0
        (tryPhase inp.fs (isJSONStorage st) (get_pylav_cogs inp.fs.repoEntries)
          inp.gitHead process.isSome).1
        ([Act.mkdirFolders, Act.gitSync]
          ++ (if isJSONStorage st then
            install_or_update_pylav_cogs (get_pylav_cogs inp.fs.repoEntries) else [])
          ++ spawnActs
          ++ (tryPhase inp.fs (isJSONStorage st) (get_pylav_cogs inp.fs.repoEntries)
              inp.gitHead process.isSome).2.1
          ++ failLogActs (tryPhase inp.fs (isJSONStorage st) (get_pylav_cogs inp.fs.repoEntries)
              inp.gitHead process.isSome).2.2
          ++ (if process.isSome then [Act.killPip, Act.terminatePip] else [])) := by
      unfold runMain
      rw [hinit]
      simp [hgate, hne, hp]
    rw [hrun]
    simp only [outcomeActs]
    split_ifs <;>
      simp [List.mem_append, logUpToDate_notin_copy, logUpToDate_notin_spawnActs _ _ _ hp,
        logUpToDate_notin_tryPhase, logUpToDate_notin_failLog]

/-! ### Claim theorems -/

/-- Claim C1: whenever the HEAD commit reported by the repository sync
equals the previously recorded commit read from the state file
(byte-for-byte string equality), the run takes the up-to-date path and
exits with code 0, with the filesystem unchanged (in particular neither
registry file written), no plugin directory copied and no dependency
installer spawned. -/
theorem c1_equal_commits_up_to_date (inp : MainInput) (st : String)
    (hinit : resolveStorageType inp.storageTypeEnv inp.fs.configJson = .ok st)
    (hgate : gatePasses inp.tag = true)
    (heq : inp.gitHead = get_existing_commit inp.fs) :
    runMain inp = .exited 0 inp.fs [.mkdirFolders, .gitSync, .logUpToDate] ∧
    ∀ a ∈ outcomeActs (runMain inp),
      isRegistryWrite a = false ∧ isCopy a = false ∧ isSpawn a = false := by
  have h := runMain_upToDate inp st hinit hgate heq
  refine ⟨h, ?_⟩
  rw [h]
  intro a ha
  simp [outcomeActs] at ha
  rcases ha with h1 | h1 | h1 <;> subst h1 <;> exact ⟨rfl, rfl, rfl⟩

/-- Witness for C1 at a concrete run whose synced HEAD equals the
recorded commit. -/
theorem c1_equal_commits_up_to_date_witness :
    runMain ⟨some "red-pylav", some "JSON", ⟨none, none, some "abc", none, []⟩, "abc"⟩
      = .exited 0 ⟨none, none, some "abc", none, []⟩ [.mkdirFolders, .gitSync, .logUpToDate] ∧
    ∀ a ∈ outcomeActs
        (runMain ⟨some "red-pylav", some "JSON", ⟨none, none, some "abc", none, []⟩, "abc"⟩),
      isRegistryWrite a = false ∧ isCopy a = false ∧ isSpawn a = false :=
  c1_equal_commits_up_to_date _ "JSON" rfl rfl rfl

/-- Claim C2: an exception raised inside the install/deploy/persist
try-block is caught, logged and suppressed; the run still exits with
code 0; and when an installer subprocess was started the final cleanup
both kills and terminates it. -/
theorem c2_install_phase_exception_suppressed (inp : MainInput) (st : String)
    (process : Option (List JValue)) (spawnActs : List Act)
    (fsT : FSState) (actsT : List Act) (e : PyError)
    (hinit : resolveStorageType inp.storageTypeEnv inp.fs.configJson = .ok st)
    (hgate : gatePasses inp.tag = true)
    (hne : inp.gitHead ≠ get_existing_commit inp.fs)
    (hproc : install_requirements (get_pylav_cogs inp.fs.repoEntries) = .ok (process, spawnActs))
    (htry : tryPhase inp.fs (isJSONStorage st) (get_pylav_cogs inp.fs.repoEntries)
      inp.gitHead process.isSome = (fsT, actsT, some e)) :
    outcomeCode (runMain inp) = some 0 ∧
    Act.logFailure e ∈ outcomeActs (runMain inp) ∧
    (process.isSome = true →
      Act.killPip ∈ outcomeActs (runMain inp) ∧ Act.terminatePip ∈ outcomeActs (runMain inp)) := by
  have hrun : runMain inp =
      .exited 0 fsT
        ([Act.mkdirFolders, Act.gitSync]
          ++ (if isJSONStorage st then
                install_or_update_pylav_cogs (get_pylav_cogs inp.fs.repoEntries) else [])
          ++ spawnActs ++ actsT ++ [Act.logFailure e]
          ++ (if process.isSome then [Act.killPip, Act.terminatePip] else [])) := by
    unfold runMain
    rw [hinit]
    simp [hgate, hne, hproc, htry, failLogActs]
  rw [hrun]
  refine ⟨rfl, ?_, ?_⟩
  · simp [outcomeActs]
  · intro hp
    simp [outcomeActs, hp]

/-- Witness for C2: a malformed downloader registry makes the
try-block raise a KeyError while a pip process is running; the run
still exits 0 and the process is killed and terminated. -/
theorem c2_install_phase_exception_suppressed_witness :
    outcomeCode (runMain ⟨some "red-pylav", some "JSON",
      ⟨none, some (.obj []), none, none,
        [⟨"plone", true, some (.obj [("requirements", .arr [.str "aiohttp"])])⟩]⟩, "abc"⟩)
      = some 0 ∧
    Act.logFailure (.keyError "998240343") ∈ outcomeActs (runMain ⟨some "red-pylav", some "JSON",
      ⟨none, some (.obj []), none, none,
        [⟨"plone", true, some (.obj [("requirements", .arr [.str "aiohttp"])])⟩]⟩, "abc"⟩) ∧
    ((some [JValue.str "aiohttp"]).isSome = true →
      Act.killPip ∈ outcomeActs (runMain ⟨some "red-pylav", some "JSON",
        ⟨none, some (.obj []), none, none,
          [⟨"plone", true, some (.obj [("requirements", .arr [.str "aiohttp"])])⟩]⟩, "abc"⟩) ∧
      Act.terminatePip ∈ outcomeActs (runMain ⟨some "red-pylav", some "JSON",
        ⟨none, some (.obj []), none, none,
          [⟨"plone", true, some (.obj [("requirements", .arr [.str "aiohttp"])])⟩]⟩, "abc"⟩)) :=
  c2_install_phase_exception_suppressed _ "JSON" (some [JValue.str "aiohttp"])
    [.spawnPip [JValue.str "aiohttp"]]
    ⟨none, some (.obj []), none, none,
      [⟨"plone", true, some (.obj [("requirements", .arr [.str "aiohttp"])])⟩]⟩ []
    (.keyError "998240343") rfl rfl (by decide) rfl rfl

/-- Counterexample to claim C3 as stated: the module-level
STORAGE_TYPE resolution (lines 22-26) runs before the gate, so in an
environment where the gate variable is unset, STORAGE_TYPE is also
unset and /data/config.json is missing, the script raises
FileNotFoundError and the process does not exit with code 0 (the
outcome is a crash, whose exit code is non-zero). -/
theorem c3_gate_unset_counterexample :
    gatePasses none = false ∧
    runMain ⟨none, none, ⟨none, none, none, none, []⟩, "abc"⟩
      = .crashed .fileNotFound ⟨none, none, none, none, []⟩ [] ∧
    outcomeCode (runMain ⟨none, none, ⟨none, none, none, none, []⟩, "abc"⟩) = none :=
  ⟨rfl, rfl, rfl⟩

/-- Claim C3 (amended): when the gate variable is unset, or set
without the substring "pylav", and the module-level storage-type
resolution that precedes the gate succeeds (STORAGE_TYPE set
non-empty, or the config file present with a string entry), the run
exits immediately with code 0, performs no action at all and leaves
the filesystem untouched; when that resolution fails the process
instead crashes before reaching the gate. -/
theorem c3_gate_unset_exits_clean (inp : MainInput) (st : String)
    (hinit : resolveStorageType inp.storageTypeEnv inp.fs.configJson = .ok st)
    (hgate : gatePasses inp.tag = false) :
    runMain inp = .exited 0 inp.fs [] := by
  unfold runMain
  rw [hinit]
  simp [hgate]

/-- Witness for C3 with the gate variable unset. -/
theorem c3_gate_unset_exits_clean_witness :
    runMain ⟨none, some "JSON", ⟨none, none, none, none, []⟩, "abc"⟩
      = .exited 0 ⟨none, none, none, none, []⟩ [] :=
  c3_gate_unset_exits_clean _ "JSON" rfl rfl

/-- Counterexample to claim C4 as stated: the claim names
"pylav-core" as a directory included by discovery, but the code's
filter keeps names starting with "pl", and "pylav-core" starts with
"py", so a directory of that name is excluded (discovery of it alone
yields the empty mapping). -/
theorem c4_discovery_counterexample :
    get_pylav_cogs [⟨"pylav-core", true, none⟩] = [] ∧
    strStartsWith "pylav-core" "pl" = false := ⟨rfl, rfl⟩

/-- Claim C4 (amended): discovery returns exactly the top-level
entries that are directories whose name starts with "pl" (e.g.
"plutils") or equals "audio"; a directory named "pylav-core" (which
starts with "py"), "docs" or "notanaudioplugin_other", and a
non-directory entry, are excluded; no recursion below the top level. -/
theorem c4_discovery_filter_amended :
    (∀ (entries : List RepoEntry) (e : RepoEntry),
        e ∈ get_pylav_cogs entries ↔
          e ∈ entries ∧ e.isDir = true ∧ (strStartsWith e.name "pl" = true ∨ e.name = "audio")) ∧
    get_pylav_cogs [⟨"audio", true, none⟩, ⟨"plutils", true, none⟩, ⟨"pylav-core", true, none⟩,
        ⟨"docs", true, none⟩, ⟨"notanaudioplugin_other", true, none⟩, ⟨"plfile", false, none⟩]
      = [⟨"audio", true, none⟩, ⟨"plutils", true, none⟩] := by
  constructor
  · intro entries e
    simp [get_pylav_cogs, List.mem_filter, Bool.and_eq_true, Bool.or_eq_true, and_assoc]
  · rfl

/-- Claim C5: over well-formed manifests, the collected requirement set
is exactly the union of the declared requirement lists of all existing
manifests (membership-wise, duplicates eliminated, every element a
string, order irrelevant). -/
theorem c5_requirements_union (cogs : List RepoEntry)
    (h : ∀ cog ∈ cogs, wfManifest cog.infoJson = true) :
    ∃ reqs, get_requirements_for_all_cogs cogs = .ok reqs ∧
      (∀ t : String, JValue.str t ∈ reqs ↔ ∃ cog ∈ cogs, t ∈ manifestReqs cog.infoJson) ∧
      (∀ v ∈ reqs, ∃ t, v = JValue.str t) ∧ reqs.Nodup := by
  obtain ⟨reqs, h1, h2, h3, h4⟩ := collectReqs_of_wf cogs [] h (by simp) List.nodup_nil
  refine ⟨reqs, h1, ?_, h3, h4⟩
  intro t
  have := h2 (.str t)
  simpa using this

/-- Witness for C5 on the spec's example pair of manifests: the
collected set is exactly a, b, c. -/
theorem c5_requirements_union_witness :
    (∀ cog ∈ ([⟨"plone", true, some (.obj [("requirements", .arr [.str "a", .str "b"])])⟩,
       ⟨"pltwo", true, some (.obj [("requirements", .arr [.str "b", .str "c"])])⟩] : List RepoEntry),
      wfManifest cog.infoJson = true) ∧
    get_requirements_for_all_cogs
      [⟨"plone", true, some (.obj [("requirements", .arr [.str "a", .str "b"])])⟩,
       ⟨"pltwo", true, some (.obj [("requirements", .arr [.str "b", .str "c"])])⟩]
      = .ok [.str "a", .str "b", .str "c"] ∧
    ∃ reqs, get_requirements_for_all_cogs
      [⟨"plone", true, some (.obj [("requirements", .arr [.str "a", .str "b"])])⟩,
       ⟨"pltwo", true, some (.obj [("requirements", .arr [.str "b", .str "c"])])⟩] = .ok reqs ∧
      (∀ t : String, JValue.str t ∈ reqs ↔
        ∃ cog ∈ ([⟨"plone", true, some (.obj [("requirements", .arr [.str "a", .str "b"])])⟩,
          ⟨"pltwo", true, some (.obj [("requirements", .arr [.str "b", .str "c"])])⟩] : List RepoEntry),
          t ∈ manifestReqs cog.infoJson) ∧
      (∀ v ∈ reqs, ∃ t, v = JValue.str t) ∧ reqs.Nodup :=
  ⟨by decide, rfl, c5_requirements_union _ (by decide)⟩

/-- Claim C6: when the collected requirement set is empty, the
dependency installer is never spawned and `install_requirements`
returns no process handle. -/
theorem c6_empty_requirements_no_spawn (cogs : List RepoEntry)
    (h : get_requirements_for_all_cogs cogs = .ok []) :
    install_requirements cogs = .ok (none, []) := by
  unfold install_requirements
  rw [h]
  rfl

/-- Witness for C6 on an empty cog list. -/
theorem c6_empty_requirements_no_spawn_witness :
    install_requirements [] = .ok (none, []) :=
  c6_empty_requirements_no_spawn [] rfl

/-- Claim C7: updating an existing repo-manager document that already
holds the pair pylav/master under the fixed numeric key leaves the
document unchanged and performs no write. -/
theorem c7_repo_manager_update_idempotent (top l1f l2f repos : List (String × JValue))
    (h1 : lookupField top "170708480" = some (.obj l1f))
    (h2 : lookupField l1f "GLOBAL" = some (.obj l2f))
    (h3 : lookupField l2f "repos" = some (.obj repos))
    (hp : lookupField repos "pylav" = some (.str "master")) :
    create_or_update_repo_manager_setting (some (.obj top)) = .ok (.obj top, false) := by
  unfold create_or_update_repo_manager_setting
  simp [JValue.getItem, JValue.hasMember, h1, h2, h3, hp]

/-- Witness for C7 on a document that already contains the pair. -/
theorem c7_repo_manager_update_idempotent_witness :
    create_or_update_repo_manager_setting
      (some (.obj [("170708480", .obj [("GLOBAL",
        .obj [("repos", .obj [("other", .str "main"), ("pylav", .str "master")])])])]))
      = .ok (.obj [("170708480", .obj [("GLOBAL",
        .obj [("repos", .obj [("other", .str "main"), ("pylav", .str "master")])])])], false) :=
  c7_repo_manager_update_idempotent _ _ _ _ rfl rfl rfl rfl

/-- Claim C8: with no prior commit-state file the previously recorded
commit reads back as the empty string, so any non-empty current commit
is treated as changed: the run never takes the up-to-date path. -/
theorem c8_missing_hashfile_treated_changed (inp : MainInput) (st : String)
    (habsent : inp.fs.pylavHashFile = none)
    (hinit : resolveStorageType inp.storageTypeEnv inp.fs.configJson = .ok st)
    (hgate : gatePasses inp.tag = true)
    (hne : inp.gitHead ≠ "") :
    get_existing_commit inp.fs = "" ∧
    Act.logUpToDate ∉ outcomeActs (runMain inp) := by
  have hge : get_existing_commit inp.fs = "" := by
    simp [get_existing_commit, habsent]
  refine ⟨hge, runMain_install_path inp st hinit hgate ?_⟩
  rw [hge]
  exact hne

/-- Witness for C8 on a run with no hash file and a non-empty HEAD. -/
theorem c8_missing_hashfile_treated_changed_witness :
    get_existing_commit (⟨none, none, none, none, []⟩ : FSState) = "" ∧
    Act.logUpToDate ∉ outcomeActs (runMain ⟨some "red-pylav", some "JSON",
      ⟨none, none, none, none, []⟩, "abc"⟩) :=
  c8_missing_hashfile_treated_changed
    ⟨some "red-pylav", some "JSON", ⟨none, none, none, none, []⟩, "abc"⟩ "JSON"
    rfl rfl rfl (by decide)

/-- Claim C9: on an existing downloader registry document of the
expected shape, the update replaces exactly the pylav entry of the
installed-cogs mapping with the new payload and writes the document
back with every other key at every level unchanged. -/
theorem c9_downloader_update_frame (top l1f l2f icf : List (String × JValue)) (data : JValue)
    (h1 : lookupField top "998240343" = some (.obj l1f))
    (h2 : lookupField l1f "GLOBAL" = some (.obj l2f))
    (h3 : lookupField l2f "installed_cogs" = some (.obj icf)) :
    create_or_update_downloader_setting (some (.obj top)) data =
      .ok (.obj (setField top "998240343" (.obj (setField l1f "GLOBAL"
        (.obj (setField l2f "installed_cogs" (.obj (setField icf "pylav" data)))))))) ∧
    lookupField (setField icf "pylav" data) "pylav" = some data ∧
    (∀ k, k ≠ "pylav" → lookupField (setField icf "pylav" data) k = lookupField icf k) ∧
    (∀ k, k ≠ "998240343" →
      lookupField (setField top "998240343" (.obj (setField l1f "GLOBAL"
        (.obj (setField l2f "installed_cogs" (.obj (setField icf "pylav" data))))))) k
        = lookupField top k) ∧
    (∀ k, k ≠ "GLOBAL" →
      lookupField (setField l1f "GLOBAL"
        (.obj (setField l2f "installed_cogs" (.obj (setField icf "pylav" data))))) k
        = lookupField l1f k) ∧
    (∀ k, k ≠ "installed_cogs" →
      lookupField (setField l2f "installed_cogs" (.obj (setField icf "pylav" data))) k
        = lookupField l2f k) := by
  refine ⟨?_, ?_, ?_, ?_, ?_, ?_⟩
  · unfold create_or_update_downloader_setting
    simp [JValue.getItem, JValue.setKey, h1, h2, h3]
  · simp [lookupField_setField]
  · intro k hk; simp [lookupField_setField, hk]
  · intro k hk; simp [lookupField_setField, hk]
  · intro k hk; simp [lookupField_setField, hk]
  · intro k hk; simp [lookupField_setField, hk]

/-- Witness for C9 on a document with unrelated sibling keys at every
level: the update replaces the pylav entry and keeps the rest. -/
theorem c9_downloader_update_frame_witness :
    create_or_update_downloader_setting
      (some (.obj [("x", .str "keep"), ("998240343", .obj [("GLOBAL",
        .obj [("installed_cogs", .obj [("other", .str "o"), ("pylav", .str "old")]), ("y", .null)])])]))
      (.str "new") =
      .ok (.obj (setField [("x", .str "keep"), ("998240343", .obj [("GLOBAL",
        .obj [("installed_cogs", .obj [("other", .str "o"), ("pylav", .str "old")]), ("y", .null)])])]
        "998240343" (.obj (setField [("GLOBAL",
        .obj [("installed_cogs", .obj [("other", .str "o"), ("pylav", .str "old")]), ("y", .null)])]
        "GLOBAL" (.obj (setField [("installed_cogs", .obj [("other", .str "o"), ("pylav", .str "old")]), ("y", .null)]
        "installed_cogs" (.obj (setField [("other", .str "o"), ("pylav", .str "old")] "pylav" (.str "new"))))))))) ∧
    lookupField (setField [("other", .str "o"), ("pylav", .str "old")] "pylav" (.str "new")) "pylav"
      = some (.str "new") ∧
    (∀ k, k ≠ "pylav" →
      lookupField (setField [("other", .str "o"), ("pylav", .str "old")] "pylav" (.str "new")) k
        = lookupField [("other", .str "o"), ("pylav", .str "old")] k) ∧
    (∀ k, k ≠ "998240343" →
      lookupField (setField [("x", .str "keep"), ("998240343", .obj [("GLOBAL",
        .obj [("installed_cogs", .obj [("other", .str "o"), ("pylav", .str "old")]), ("y", .null)])])]
        "998240343" (.obj (setField [("GLOBAL",
        .obj [("installed_cogs", .obj [("other", .str "o"), ("pylav", .str "old")]), ("y", .null)])]
        "GLOBAL" (.obj (setField [("installed_cogs", .obj [("other", .str "o"), ("pylav", .str "old")]), ("y", .null)]
        "installed_cogs" (.obj (setField [("other", .str "o"), ("pylav", .str "old")] "pylav" (.str "new")))))))) k
        = lookupField [("x", .str "keep"), ("998240343", .obj [("GLOBAL",
        .obj [("installed_cogs", .obj [("other", .str "o"), ("pylav", .str "old")]), ("y", .null)])])] k) ∧
    (∀ k, k ≠ "GLOBAL" →
      lookupField (setField [("GLOBAL",
        .obj [("installed_cogs", .obj [("other", .str "o"), ("pylav", .str "old")]), ("y", .null)])]
        "GLOBAL" (.obj (setField [("installed_cogs", .obj [("other", .str "o"), ("pylav", .str "old")]), ("y", .null)]
        "installed_cogs" (.obj (setField [("other", .str "o"), ("pylav", .str "old")] "pylav" (.str "new")))))) k
        = lookupField [("GLOBAL",
        .obj [("installed_cogs", .obj [("other", .str "o"), ("pylav", .str "old")]), ("y", .null)])] k) ∧
    (∀ k, k ≠ "installed_cogs" →
      lookupField (setField [("installed_cogs", .obj [("other", .str "o"), ("pylav", .str "old")]), ("y", .null)]
        "installed_cogs" (.obj (setField [("other", .str "o"), ("pylav", .str "old")] "pylav" (.str "new")))) k
        = lookupField [("installed_cogs", .obj [("other", .str "o"), ("pylav", .str "old")]), ("y", .null)] k) :=
  c9_downloader_update_frame _ _ _ _ _ rfl rfl rfl

/-- Claim C10: commit persistence round-trips: after writing commit s
the state file reads back exactly s, and a subsequent run whose synced
HEAD is the same s takes the up-to-date path. -/
theorem c10_commit_persistence_roundtrip (fs : FSState) (s : String)
    (tag stEnv : Option String) (st : String)
    (hinit : resolveStorageType stEnv fs.configJson = .ok st)
    (hgate : gatePasses tag = true) :
    get_existing_commit (update_existing_commit fs s) = s ∧
    runMain ⟨tag, stEnv, update_existing_commit fs s, s⟩ =
      .exited 0 (update_existing_commit fs s) [.mkdirFolders, .gitSync, .logUpToDate] := by
  refine ⟨rfl, runMain_upToDate _ st ?_ hgate rfl⟩
  exact hinit

/-- Witness for C10 on a concrete commit string and state. -/
theorem c10_commit_persistence_roundtrip_witness :
    get_existing_commit (update_existing_commit ⟨none, none, none, none, []⟩ "abc") = "abc" ∧
    runMain ⟨some "red-pylav", some "JSON",
        update_existing_commit ⟨none, none, none, none, []⟩ "abc", "abc"⟩ =
      .exited 0 (update_existing_commit ⟨none, none, none, none, []⟩ "abc")
        [.mkdirFolders, .gitSync, .logUpToDate] :=
  c10_commit_persistence_roundtrip ⟨none, none, none, none, []⟩ "abc"
    (some "red-pylav") (some "JSON") "JSON" rfl rfl
